import Mathlib

/-!
Shallow embedding of the run-lifecycle orchestrator in
backend/run_agent_background.py: the run coordinator (agent and workflow
paths), the stop watcher (check_for_stop_signal) and the status writer
(update_agent_run_status / update_workflow_execution_status), together with
a functional model of the Redis streaming bus they use.

Redis is modelled as a state record: a string key/value table (locks and
heartbeat keys), a TTL table, a table of response lists, and an append-only
log of published (channel, payload) pairs.  The disjoint key families the
code uses (string keys for locks/heartbeats, list keys for response logs)
are kept in separate tables.  The database is modelled as an explicit row
value plus a log of update dictionaries.  The event producer is modelled as
the finite list of events it yields, optionally followed by a raised
exception; the stop-watcher flag is modelled by the index of the first
event boundary at which the drive loop observes the flag set.
-/

/-- A response event: a JSON object, modelled as an association list of
string fields.  The coordinator only ever inspects string-valued fields
(type, status, message, error); all other content is carried verbatim. -/
structure Event where
  fields : List (String × String)
deriving DecidableEq

/-- Field access, mirroring dict.get on the parsed JSON object. -/
def Event.get (e : Event) (k : String) : Option String :=
  List.lookup k e.fields

/-- The streaming-bus state: string keys, TTLs, response lists, and the
log of published (channel, payload) pairs. -/
structure RedisState where
  kv : String → Option String
  ttl : String → Option Nat
  lists : String → List Event
  published : List (String × String)

/-- redis.set(key, value, ex=ttl). -/
def redisSetEx (st : RedisState) (k v : String) (ex : Nat) : RedisState :=
  { st with
    kv := fun q => if q = k then some v else st.kv q
    ttl := fun q => if q = k then some ex else st.ttl q }

/-- redis.set(key, value, nx=True, ex=ttl): atomic set-if-absent; returns
whether the key was acquired, mirroring the truthiness of the reply. -/
def redisSetNX (st : RedisState) (k v : String) (ex : Nat) : Bool × RedisState :=
  match st.kv k with
  | some _ => (false, st)
  | none => (true, redisSetEx st k v ex)

/-- redis.delete(key) on a string key (locks and heartbeats). -/
def redisDelete (st : RedisState) (k : String) : RedisState :=
  { st with
    kv := fun q => if q = k then none else st.kv q
    ttl := fun q => if q = k then none else st.ttl q }

/-- redis.expire(key, t): sets a TTL when the key exists (a present string
key or a non-empty list), and is a no-op otherwise. -/
def redisExpire (st : RedisState) (k : String) (t : Nat) : RedisState :=
  if st.kv k ≠ none ∨ st.lists k ≠ [] then
    { st with ttl := fun q => if q = k then some t else st.ttl q }
  else st

/-- redis.rpush(key, event). -/
def redisRpush (st : RedisState) (k : String) (e : Event) : RedisState :=
  { st with lists := fun q => if q = k then st.lists q ++ [e] else st.lists q }

/-- redis.publish(channel, payload). -/
def redisPublish (st : RedisState) (ch msg : String) : RedisState :=
  { st with published := st.published ++ [(ch, msg)] }

/-- Modelled from the spec: services.redis.REDIS_KEY_TTL, the 24-hour TTL
used for run locks and heartbeat keys (the redis service module is not part
of the sources; the spec gives T_LOCK = T_HB = 24 h). -/
def REDIS_KEY_TTL : Nat := 3600 * 24

/-- TTL for Redis response lists (24 hours), line 339 of the source. -/
def REDIS_RESPONSE_LIST_TTL : Nat := 3600 * 24

/-- Python truthiness of an optional string (None and the empty string are
falsy), used for the lock-holder check and the error field gate. -/
def pyTruthyStr : Option String → Bool
  | none => false
  | some s => !(s == "")

/-- Python f-string rendering of an optional value: None prints as the four
characters None, which is how a missing agent_run_id reaches the cleanup
helpers' key patterns in the workflow path. -/
def pyFmtOpt : Option String → String
  | none => "None"
  | some s => s

/-- Outcome of one attempt of the status writer's database update: the
update returned data, returned no data, or raised. -/
inductive DbAttempt
  | success
  | emptyData
  | dbError
deriving DecidableEq

/-- The update dictionary built by update_agent_run_status (lines 362-372):
status and completed_at are always present; error and responses are
included only when truthy. A none field means the column is absent from the
update and hence left unchanged by the row update. -/
structure UpdateData where
  status : String
  completed_at : String
  error : Option String
  responses : Option (List Event)
deriving DecidableEq

/-- Lines 362-372: the update dictionary for an agent run, with the
truthiness gates on error and responses. -/
def agentUpdateData (status : String) (error : Option String)
    (responses : List Event) (now : String) : UpdateData :=
  { status := status
    completed_at := now
    error := if pyTruthyStr error then error else none
    responses := if responses = [] then none else some responses }

/-- Result of update_agent_run_status: the returned boolean, the backoff
sleeps performed (in milliseconds), the update applied to the row (if an
attempt succeeded), and whether the read-back verification was issued. -/
structure StwResult where
  ok : Bool
  sleeps : List Nat
  applied : Option UpdateData
  verified : Bool
deriving DecidableEq

/-- The retry loop of update_agent_run_status (lines 374-405), indexed by
the remaining retry indices of range(3).  A successful attempt applies the
update, issues the read-back verification and returns True; an attempt
returning no data retries immediately or returns False on the last index;
a raising attempt sleeps 0.5 * 2^retry seconds (recorded in milliseconds)
before retrying, or returns False on the last index. -/
def stwLoop (attempts : Nat → DbAttempt) (u : UpdateData) : List Nat → StwResult
  | [] => ⟨false, [], none, false⟩
  | i :: rest =>
    match attempts i with
    | DbAttempt.success => ⟨true, [], some u, true⟩
    | DbAttempt.emptyData =>
      if rest = [] then ⟨false, [], none, false⟩
      else stwLoop attempts u rest
    | DbAttempt.dbError =>
      if rest = [] then ⟨false, [], none, false⟩
      else
        let r := stwLoop attempts u rest
        ⟨r.ok, 500 * 2 ^ i :: r.sleeps, r.applied, r.verified⟩

/-- update_agent_run_status (lines 350-405): builds the update dictionary
once and runs the three-attempt retry loop. -/
def update_agent_run_status (attempts : Nat → DbAttempt) (status : String)
    (error : Option String) (responses : List Event) (now : String) : StwResult :=
  stwLoop attempts (agentUpdateData status error responses now) [0, 1, 2]

/-- The agent_runs row: the columns touched by the terminal write. -/
structure AgentRunRow where
  status : String
  completed_at : Option String
  error : Option String
  responses : List Event
deriving DecidableEq

/-- Applying an update dictionary to the row: columns absent from the
dictionary are left unchanged. -/
def applyAgentUpdate (row : AgentRunRow) (u : UpdateData) : AgentRunRow :=
  { status := u.status
    completed_at := some u.completed_at
    error := match u.error with | some e => some e | none => row.error
    responses := match u.responses with | some r => r | none => row.responses }

/-- The status writer's effect on the stored row when the store accepts the
first attempt: build the update dictionary and apply it. -/
def statusWriterWrite (row : AgentRunRow) (status : String)
    (error : Option String) (responses : List Event) (now : String) : AgentRunRow :=
  applyAgentUpdate row (agentUpdateData status error responses now)

/-- A pub/sub message as returned by pubsub.get_message. -/
structure CtrlMessage where
  mtype : String
  data : String
deriving DecidableEq

/-- Lines 145-148: a poll result carries a stop request when it is a
message-typed message whose decoded payload equals STOP. -/
def isStopMsg : Option CtrlMessage → Bool
  | some m => m.mtype == "message" && m.data == "STOP"
  | none => false

/-- The stop watcher's poll loop (check_for_stop_signal, lines 139-161),
over the sequence of get_message results of its iterations, with the
response counter held fixed (no event traffic during the window).  Returns
the final value of the shared cancellation flag and the number of heartbeat
TTL refreshes performed: a refresh happens on an iteration exactly when
total_responses % 50 == 0 (line 153), and the loop exits on STOP before
reaching the refresh step. -/
def check_for_stop_signal (total_responses : Nat) :
    List (Option CtrlMessage) → Bool × Nat
  | [] => (false, 0)
  | m :: rest =>
    if isStopMsg m then (true, 0)
    else
      let r := check_for_stop_signal total_responses rest
      (r.1, (if total_responses % 50 == 0 then 1 else 0) + r.2)

/-- The shared cancellation flag as observed by the drive loop: stopAt k
means the stop watcher has set the flag by the time the loop reaches event
boundary k (and the flag is never cleared). -/
def stopFlag : Option Nat → Nat → Bool
  | none, _ => false
  | some k, i => decide (k ≤ i)

/-- status_val in the terminal set of lines 213 and 544. -/
def isTerminalStatus (s : String) : Bool :=
  s == "completed" || s == "failed" || s == "stopped"

/-- Lines 211-213 and 542-544: the event is of the sentinel type and its
status field is terminal. -/
def isTerminalEvent (sentinel : String) (e : Event) : Bool :=
  e.get "type" == some sentinel &&
    (match e.get "status" with
     | some s => isTerminalStatus s
     | none => false)

/-- Lines 205-207: append the event to the response list and publish the
new notification on the response channel. -/
def pushEvent (listKey channel : String) (st : RedisState) (e : Event) : RedisState :=
  redisPublish (redisRpush st listKey e) channel "new"

/-- Mirroring the whole-stream effect of the drive loop's append/publish
pairs on the bus, in event order. -/
def pushAll (listKey channel : String) (st : RedisState) (evs : List Event) : RedisState :=
  evs.foldl (pushEvent listKey channel) st

/-- The drive loop (lines 197-218 for the agent path, 526-549 for the
workflow path), parametrised by the sentinel event type, the field that
carries the terminal message, and the fallback message head.  For each
yielded event: if the cancellation flag is observed set, break with status
stopped without storing the event; otherwise append and publish it, then
break when it is a terminal status event, recording its status and, for
failed or stopped, the terminal message.  Returns the bus state, the
final_status variable and the error_message variable. -/
def driveLoop (sentinel msgField fallbackMsg listKey channel : String)
    (stopAt : Option Nat) :
    List Event → Nat → RedisState → RedisState × String × Option String
  | [], _, st => (st, "running", none)
  | e :: rest, idx, st =>
    if stopFlag stopAt idx then (st, "stopped", none)
    else
      let st' := pushEvent listKey channel st e
      if isTerminalEvent sentinel e then
        let s := (e.get "status").getD ""
        let err := if s == "failed" || s == "stopped" then
            some ((e.get msgField).getD (fallbackMsg ++ s))
          else none
        (st', s, err)
      else driveLoop sentinel msgField fallbackMsg listKey channel stopAt rest (idx + 1) st'

/-- Key patterns of lines 133-137 and 90. -/
def agentResponseListKey (agent_run_id : String) : String :=
  "agent_run:" ++ agent_run_id ++ ":responses"

def agentResponseChannel (agent_run_id : String) : String :=
  "agent_run:" ++ agent_run_id ++ ":new_response"

def agentGlobalControlChannel (agent_run_id : String) : String :=
  "agent_run:" ++ agent_run_id ++ ":control"

def agentInstanceActiveKey (instance_id agent_run_id : String) : String :=
  "active_run:" ++ instance_id ++ ":" ++ agent_run_id

def agentRunLockKey (agent_run_id : String) : String :=
  "agent_run_lock:" ++ agent_run_id

/-- cleanup_redis_response_list (lines 341-348): set the retention TTL on
the agent-pattern response list of the given id. -/
def cleanup_redis_response_list (st : RedisState) (agent_run_id : String) : RedisState :=
  redisExpire st (agentResponseListKey agent_run_id) REDIS_RESPONSE_LIST_TTL

/-- cleanup_redis_instance_key (lines 315-326): delete the agent-pattern
heartbeat key of the given id. -/
def cleanup_redis_instance_key (st : RedisState) (instance_id agent_run_id : String) :
    RedisState :=
  redisDelete st (agentInstanceActiveKey instance_id agent_run_id)

/-- cleanup_redis_run_lock (lines 328-336): delete the agent-pattern run
lock key of the given id. -/
def cleanup_redis_run_lock (st : RedisState) (agent_run_id : String) : RedisState :=
  redisDelete st (agentRunLockKey agent_run_id)

/-- The finally block's bus cleanup (lines 298-305 and 604-606): response
list TTL, then heartbeat delete, then lock delete, all through the
agent-pattern helpers. -/
def runCleanup (st : RedisState) (instance_id agent_run_id : String) : RedisState :=
  cleanup_redis_run_lock
    (cleanup_redis_instance_key
      (cleanup_redis_response_list st agent_run_id) instance_id agent_run_id)
    agent_run_id

/-- One delivery of a run-start job to run_agent_background, together with
the behaviour of its environment: the events the producer yields, whether
the producer then raises (and the exception message), the event boundary at
which the drive loop observes the cancellation flag, the rendered stack
trace, the clock reading taken by the status writer, and the outcomes of
the status writer's store attempts. -/
structure AgentInput where
  agent_run_id : String
  instance_id : String
  events : List Event
  producerError : Option String
  stopAt : Option Nat
  tracebackStr : String
  now : String
  attempts : Nat → DbAttempt

/-- Result of one delivery: the bus state, the stored row, the update
dictionaries applied to the row, the final status (none when the delivery
was skipped at the lock), and whether the run body executed. -/
structure RunResult where
  redis : RedisState
  row : AgentRunRow
  writes : List UpdateData
  finalStatus : Option String
  executed : Bool

/-- The synthetic completion event of line 225. -/
def agentCompletionMessage : Event :=
  ⟨[("type", "status"), ("status", "completed"),
    ("message", "Agent run completed successfully")]⟩

/-- The synthetic error event of line 255. -/
def agentErrorEvent (msg : String) : Event :=
  ⟨[("type", "status"), ("status", "error"), ("message", msg)]⟩

/-- Lines 220-244 plus the finally block: the normal exit of the drive
loop.  A still-running status is converted to completed with the synthetic
completion event appended and published; the full list is read back and
handed to the status writer; the final control signal is broadcast; the bus
is cleaned up. -/
def agentFinishNormal (inp : AgentInput) (st : RedisState) (row : AgentRunRow)
    (fs : String) (errMsg : Option String) : RunResult :=
  let listKey := agentResponseListKey inp.agent_run_id
  let channel := agentResponseChannel inp.agent_run_id
  let p := if fs == "running" then
      (pushEvent listKey channel st agentCompletionMessage, "completed")
    else (st, fs)
  let allResponses := p.1.lists listKey
  let stw := update_agent_run_status inp.attempts p.2 errMsg allResponses inp.now
  let row1 := match stw.applied with | some u => applyAgentUpdate row u | none => row
  let signal := if p.2 == "completed" then "END_STREAM"
    else if p.2 == "failed" then "ERROR" else "STOP"
  let st2 := redisPublish p.1 (agentGlobalControlChannel inp.agent_run_id) signal
  { redis := runCleanup st2 inp.instance_id inp.agent_run_id
    row := row1
    writes := stw.applied.toList
    finalStatus := some p.2
    executed := true }

/-- Lines 246-279 plus the finally block: the uncaught-exception path.
The synthetic error event is appended and published, the full list is read
back, the status writer is called with status failed and the exception
message joined with the stack trace, ERROR is broadcast, and the bus is
cleaned up. -/
def agentFinishExcept (inp : AgentInput) (st : RedisState) (row : AgentRunRow)
    (msg : String) : RunResult :=
  let listKey := agentResponseListKey inp.agent_run_id
  let channel := agentResponseChannel inp.agent_run_id
  let st1 := pushEvent listKey channel st (agentErrorEvent msg)
  let allResponses := st1.lists listKey
  let stw := update_agent_run_status inp.attempts "failed"
    (some (msg ++ "\n" ++ inp.tracebackStr)) allResponses inp.now
  let row1 := match stw.applied with | some u => applyAgentUpdate row u | none => row
  let st2 := redisPublish st1 (agentGlobalControlChannel inp.agent_run_id) "ERROR"
  { redis := runCleanup st2 inp.instance_id inp.agent_run_id
    row := row1
    writes := stw.applied.toList
    finalStatus := some "failed"
    executed := true }

/-- The run body after the lock is held (lines 164-313): write the
heartbeat key, drive the producer, then finish on the normal or the
exception path.  The exception path is taken when the producer raises,
which happens only if the loop consumed all yielded events without
breaking. -/
def agentRunBody (inp : AgentInput) (st : RedisState) (row : AgentRunRow) : RunResult :=
  let st0 := redisSetEx st (agentInstanceActiveKey inp.instance_id inp.agent_run_id)
    "running" REDIS_KEY_TTL
  let r := driveLoop "status" "message" "Run ended with status: "
    (agentResponseListKey inp.agent_run_id) (agentResponseChannel inp.agent_run_id)
    inp.stopAt inp.events 0 st0
  match r.2.1 == "running", inp.producerError with
  | true, some msg => agentFinishExcept inp r.1 row msg
  | _, _ => agentFinishNormal inp r.1 row r.2.1 r.2.2

/-- run_agent_background (lines 58-313).  The idempotency claim of lines
89-106: set the run lock if absent; on failure read the holder and return
without side effects if one exists; if the key reads back falsy, retry the
set once and return if it fails again. -/
def run_agent_background (inp : AgentInput) (st : RedisState) (row : AgentRunRow) :
    RunResult :=
  let lockKey := agentRunLockKey inp.agent_run_id
  let acq := redisSetNX st lockKey inp.instance_id REDIS_KEY_TTL
  if acq.1 then agentRunBody inp acq.2 row
  else if pyTruthyStr (acq.2.kv lockKey) then
    { redis := acq.2, row := row, writes := [], finalStatus := none, executed := false }
  else
    let acq2 := redisSetNX acq.2 lockKey inp.instance_id REDIS_KEY_TTL
    if acq2.1 then agentRunBody inp acq2.2 row
    else
      { redis := acq2.2, row := row, writes := [], finalStatus := none, executed := false }

/-- Sequential processing of several deliveries of run-start jobs against
one bus and one row, threading the state and concatenating the row
writes. -/
def processAgentDeliveries :
    List AgentInput → RedisState → AgentRunRow →
      RedisState × AgentRunRow × List UpdateData
  | [], st, row => (st, row, [])
  | d :: ds, st, row =>
    let r := run_agent_background d st row
    let rest := processAgentDeliveries ds r.redis r.row
    (rest.1, rest.2.1, r.writes ++ rest.2.2)

/-- The update dictionary built by update_workflow_execution_status (lines
619-623): status, a completion timestamp that is the current time for a
terminal status and null otherwise, and the error value (always included,
possibly null).  started_at is carried for the running write of line 505. -/
structure WfUpdate where
  status : String
  started_at : Option String
  completed_at : Option String
  error : Option String
deriving DecidableEq

/-- update_workflow_execution_status (lines 616-633): the update dictionary
written to the workflow_executions row and, when an agent run id alias is
present, to the agent_runs row as well. -/
def update_workflow_execution_status (status : String) (error : Option String)
    (now : String) : WfUpdate :=
  { status := status
    started_at := none
    completed_at := if isTerminalStatus status then some now else none
    error := error }

/-- One delivery of a workflow run-start job to run_workflow_background
with the behaviour of its environment; startNow is the clock reading of the
running write (line 505), now the one of the terminal write. -/
structure WorkflowInput where
  execution_id : String
  agent_run_id : Option String
  instance_id : String
  events : List Event
  producerError : Option String
  stopAt : Option Nat
  tracebackStr : String
  startNow : String
  now : String

/-- Result of one workflow delivery: the bus state, the update
dictionaries written to the workflow_executions row and to the aliased
agent_runs row, the final status (none when skipped), and whether the run
body executed. -/
structure WorkflowResult where
  redis : RedisState
  wfWrites : List WfUpdate
  agentWrites : List WfUpdate
  finalStatus : Option String
  executed : Bool

/-- Key patterns of lines 455-468: the agent_run namespace when an agent
run id alias is given, the workflow_execution namespace otherwise. -/
def wfResponseListKey (inp : WorkflowInput) : String :=
  match inp.agent_run_id with
  | some a => "agent_run:" ++ a ++ ":responses"
  | none => "workflow_execution:" ++ inp.execution_id ++ ":responses"

def wfResponseChannel (inp : WorkflowInput) : String :=
  match inp.agent_run_id with
  | some a => "agent_run:" ++ a ++ ":new_response"
  | none => "workflow_execution:" ++ inp.execution_id ++ ":new_response"

def wfGlobalControlChannel (inp : WorkflowInput) : String :=
  match inp.agent_run_id with
  | some a => "agent_run:" ++ a ++ ":control"
  | none => "workflow_execution:" ++ inp.execution_id ++ ":control"

def wfInstanceActiveKey (inp : WorkflowInput) : String :=
  match inp.agent_run_id with
  | some a => "active_run:" ++ inp.instance_id ++ ":" ++ a
  | none => "active_workflow:" ++ inp.instance_id ++ ":" ++ inp.execution_id

/-- The lock key acquired by run_workflow_background (line 427). -/
def workflowLockKey (execution_id : String) : String :=
  "workflow_run_lock:" ++ execution_id

/-- The synthetic completion event of line 555. -/
def workflowCompletionMessage : Event :=
  ⟨[("type", "workflow_status"), ("status", "completed"),
    ("message", "Workflow execution completed successfully")]⟩

/-- The synthetic error event of line 575. -/
def workflowErrorEvent (msg : String) : Event :=
  ⟨[("type", "workflow_status"), ("status", "error"), ("message", msg)]⟩

/-- The finally block of the workflow path (lines 604-606): the three
cleanup helpers are invoked with the agent_run_id value, rendered the way
the f-strings inside the helpers render it, regardless of which key
namespace the run actually used, and no helper touches the
workflow_run_lock key. -/
def wfCleanup (st : RedisState) (inp : WorkflowInput) : RedisState :=
  cleanup_redis_run_lock
    (cleanup_redis_instance_key
      (cleanup_redis_response_list st (pyFmtOpt inp.agent_run_id))
      inp.instance_id (pyFmtOpt inp.agent_run_id))
    (pyFmtOpt inp.agent_run_id)

/-- Lines 551-566 plus the finally block: normal exit of the workflow
drive loop; mirrors agentFinishNormal with the workflow sentinel and the
workflow status writer. -/
def wfFinishNormal (inp : WorkflowInput) (st : RedisState)
    (fs : String) (errMsg : Option String) (wfW : List WfUpdate) : WorkflowResult :=
  let p := if fs == "running" then
      (pushEvent (wfResponseListKey inp) (wfResponseChannel inp) st
        workflowCompletionMessage, "completed")
    else (st, fs)
  let u := update_workflow_execution_status p.2 errMsg inp.now
  let signal := if p.2 == "completed" then "END_STREAM"
    else if p.2 == "failed" then "ERROR" else "STOP"
  let st2 := redisPublish p.1 (wfGlobalControlChannel inp) signal
  { redis := wfCleanup st2 inp
    wfWrites := wfW ++ [u]
    agentWrites := match inp.agent_run_id with | some _ => [u] | none => []
    finalStatus := some p.2
    executed := true }

/-- Lines 568-587 plus the finally block: the uncaught-exception path of
the workflow run. -/
def wfFinishExcept (inp : WorkflowInput) (st : RedisState) (msg : String)
    (wfW : List WfUpdate) : WorkflowResult :=
  let st1 := pushEvent (wfResponseListKey inp) (wfResponseChannel inp) st
    (workflowErrorEvent msg)
  let u := update_workflow_execution_status "failed"
    (some (msg ++ "\n" ++ inp.tracebackStr)) inp.now
  let st2 := redisPublish st1 (wfGlobalControlChannel inp) "ERROR"
  { redis := wfCleanup st2 inp
    wfWrites := wfW ++ [u]
    agentWrites := match inp.agent_run_id with | some _ => [u] | none => []
    finalStatus := some "failed"
    executed := true }

/-- The workflow run body after the lock is held (lines 493-613): write the
heartbeat key, write status running with started_at to the
workflow_executions row (line 505), drive the producer with the workflow
sentinel, then finish on the normal or the exception path. -/
def wfRunBody (inp : WorkflowInput) (st : RedisState) : WorkflowResult :=
  let st0 := redisSetEx st (wfInstanceActiveKey inp) "running" REDIS_KEY_TTL
  let runningWrite : WfUpdate :=
    { status := "running", started_at := some inp.startNow,
      completed_at := none, error := none }
  let r := driveLoop "workflow_status" "error" "Workflow ended with status: "
    (wfResponseListKey inp) (wfResponseChannel inp) inp.stopAt inp.events 0 st0
  match r.2.1 == "running", inp.producerError with
  | true, some msg => wfFinishExcept inp r.1 msg [runningWrite]
  | _, _ => wfFinishNormal inp r.1 r.2.1 r.2.2 [runningWrite]

/-- run_workflow_background (lines 407-613), with the idempotency claim of
lines 427-440 mirroring the agent path on the workflow_run_lock key. -/
def run_workflow_background (inp : WorkflowInput) (st : RedisState) : WorkflowResult :=
  let lockKey := workflowLockKey inp.execution_id
  let acq := redisSetNX st lockKey inp.instance_id REDIS_KEY_TTL
  if acq.1 then wfRunBody inp acq.2
  else if pyTruthyStr (acq.2.kv lockKey) then
    { redis := acq.2, wfWrites := [], agentWrites := [],
      finalStatus := none, executed := false }
  else
    let acq2 := redisSetNX acq.2 lockKey inp.instance_id REDIS_KEY_TTL
    if acq2.1 then wfRunBody inp acq2.2
    else
      { redis := acq2.2, wfWrites := [], agentWrites := [],
        finalStatus := none, executed := false }

/-! Concrete sample inputs used by the closed theorems below. -/

/-- A fresh bus with no keys, lists or publications. -/
def emptyRedis : RedisState :=
  { kv := fun _ => none, ttl := fun _ => none, lists := fun _ => [], published := [] }

/-- A freshly created run row. -/
def pendingRow : AgentRunRow :=
  { status := "pending", completed_at := none, error := none, responses := [] }

/-- A bus on which another worker already holds both run locks. -/
def sampleLockedRedis : RedisState :=
  { emptyRedis with
    kv := fun q =>
      if q = "agent_run_lock:r1" then some "instA"
      else if q = "workflow_run_lock:e1" then some "instA" else none }

def sampleAgentInput : AgentInput :=
  { agent_run_id := "r1", instance_id := "instB", events := [],
    producerError := none, stopAt := none, tracebackStr := "tb", now := "T1",
    attempts := fun _ => DbAttempt.success }

def sampleWorkflowInput : WorkflowInput :=
  { execution_id := "e1", agent_run_id := some "r1", instance_id := "instB",
    events := [], producerError := none, stopAt := none, tracebackStr := "tb",
    startNow := "S1", now := "T1" }

/-- Two deliveries of the same run-start job, processed at clock readings
T1 and T2, the second one arriving after the first has finished and
cleaned up. -/
def c3Delivery1 : AgentInput :=
  { agent_run_id := "r1", instance_id := "instA", events := [],
    producerError := none, stopAt := none, tracebackStr := "tb", now := "T1",
    attempts := fun _ => DbAttempt.success }

def c3Delivery2 : AgentInput :=
  { c3Delivery1 with instance_id := "instB", now := "T2" }

/-- A workflow job carrying an agent-run alias. -/
def c4AliasInput : WorkflowInput :=
  { execution_id := "e1", agent_run_id := some "r1", instance_id := "i1",
    events := [], producerError := none, stopAt := none, tracebackStr := "tb",
    startNow := "S", now := "T" }

/-- The same workflow job without an agent-run alias. -/
def c4NoAliasInput : WorkflowInput :=
  { c4AliasInput with agent_run_id := none }

def c5Input : AgentInput :=
  { agent_run_id := "r4", instance_id := "i1",
    events := [⟨[("type", "assistant"), ("text", "hello")]⟩],
    producerError := some "Boom", stopAt := none,
    tracebackStr := "Traceback: Boom", now := "T4",
    attempts := fun _ => DbAttempt.success }

def c6Input : AgentInput :=
  { agent_run_id := "r5", instance_id := "i1", events := [],
    producerError := none, stopAt := none, tracebackStr := "tb", now := "T5",
    attempts := fun _ => DbAttempt.success }

def c7Input : AgentInput :=
  { agent_run_id := "r2", instance_id := "i1",
    events := [⟨[("type", "assistant"), ("text", "part 1")]⟩,
               ⟨[("type", "assistant"), ("text", "part 2")]⟩],
    producerError := none, stopAt := some 1, tracebackStr := "tb", now := "T2",
    attempts := fun _ => DbAttempt.success }

def c10Input : AgentInput :=
  { agent_run_id := "r7", instance_id := "i1",
    events := [⟨[("type", "assistant"), ("text", "x")]⟩],
    producerError := none, stopAt := some 0, tracebackStr := "tb", now := "T7",
    attempts := fun _ => DbAttempt.success }

def c2Row : AgentRunRow :=
  { status := "running", completed_at := none, error := none, responses := [] }

/-! Projection lemmas for the bus operations. -/

@[simp] lemma redisSetEx_lists (st : RedisState) (k v : String) (ex : Nat) :
    (redisSetEx st k v ex).lists = st.lists := rfl

@[simp] lemma redisSetEx_published (st : RedisState) (k v : String) (ex : Nat) :
    (redisSetEx st k v ex).published = st.published := rfl

@[simp] lemma redisPublish_kv (st : RedisState) (ch m : String) :
    (redisPublish st ch m).kv = st.kv := rfl

@[simp] lemma redisPublish_ttl (st : RedisState) (ch m : String) :
    (redisPublish st ch m).ttl = st.ttl := rfl

@[simp] lemma redisPublish_lists (st : RedisState) (ch m : String) :
    (redisPublish st ch m).lists = st.lists := rfl

@[simp] lemma redisPublish_published (st : RedisState) (ch m : String) :
    (redisPublish st ch m).published = st.published ++ [(ch, m)] := rfl

@[simp] lemma redisRpush_kv (st : RedisState) (k : String) (e : Event) :
    (redisRpush st k e).kv = st.kv := rfl

@[simp] lemma redisRpush_ttl (st : RedisState) (k : String) (e : Event) :
    (redisRpush st k e).ttl = st.ttl := rfl

@[simp] lemma redisRpush_published (st : RedisState) (k : String) (e : Event) :
    (redisRpush st k e).published = st.published := rfl

@[simp] lemma redisDelete_lists (st : RedisState) (k : String) :
    (redisDelete st k).lists = st.lists := rfl

@[simp] lemma redisDelete_published (st : RedisState) (k : String) :
    (redisDelete st k).published = st.published := rfl

@[simp] lemma redisExpire_kv (st : RedisState) (k : String) (t : Nat) :
    (redisExpire st k t).kv = st.kv := by
  unfold redisExpire; split <;> rfl

@[simp] lemma redisExpire_lists (st : RedisState) (k : String) (t : Nat) :
    (redisExpire st k t).lists = st.lists := by
  unfold redisExpire; split <;> rfl

@[simp] lemma redisExpire_published (st : RedisState) (k : String) (t : Nat) :
    (redisExpire st k t).published = st.published := by
  unfold redisExpire; split <;> rfl

@[simp] lemma pushEvent_kv (lk ch : String) (st : RedisState) (e : Event) :
    (pushEvent lk ch st e).kv = st.kv := rfl

@[simp] lemma pushEvent_ttl (lk ch : String) (st : RedisState) (e : Event) :
    (pushEvent lk ch st e).ttl = st.ttl := rfl

@[simp] lemma pushEvent_published (lk ch : String) (st : RedisState) (e : Event) :
    (pushEvent lk ch st e).published = st.published ++ [(ch, "new")] := rfl

@[simp] lemma pushEvent_lists_self (lk ch : String) (st : RedisState) (e : Event) :
    (pushEvent lk ch st e).lists lk = st.lists lk ++ [e] := by
  simp [pushEvent, redisRpush, redisPublish]

lemma pushAll_nil (lk ch : String) (st : RedisState) :
    pushAll lk ch st [] = st := rfl

lemma pushAll_cons (lk ch : String) (st : RedisState) (e : Event) (evs : List Event) :
    pushAll lk ch st (e :: evs) = pushAll lk ch (pushEvent lk ch st e) evs := rfl

@[simp] lemma pushAll_kv (lk ch : String) :
    ∀ (evs : List Event) (st : RedisState), (pushAll lk ch st evs).kv = st.kv := by
  intro evs
  induction evs with
  | nil => intro st; rfl
  | cons e rest ih => intro st; rw [pushAll_cons, ih]; rfl

@[simp] lemma pushAll_ttl (lk ch : String) :
    ∀ (evs : List Event) (st : RedisState), (pushAll lk ch st evs).ttl = st.ttl := by
  intro evs
  induction evs with
  | nil => intro st; rfl
  | cons e rest ih => intro st; rw [pushAll_cons, ih]; rfl

@[simp] lemma pushAll_lists_self (lk ch : String) :
    ∀ (evs : List Event) (st : RedisState),
      (pushAll lk ch st evs).lists lk = st.lists lk ++ evs := by
  intro evs
  induction evs with
  | nil => intro st; simp [pushAll_nil]
  | cons e rest ih =>
    intro st
    rw [pushAll_cons, ih, pushEvent_lists_self, List.append_assoc]
    rfl

lemma pushAll_published (lk ch : String) :
    ∀ (evs : List Event) (st : RedisState),
      (pushAll lk ch st evs).published
        = st.published ++ evs.map (fun _ => (ch, "new")) := by
  intro evs
  induction evs with
  | nil => intro st; simp [pushAll_nil]
  | cons e rest ih =>
    intro st
    rw [pushAll_cons, ih, pushEvent_published, List.append_assoc]
    rfl

@[simp] lemma runCleanup_lists (st : RedisState) (i a : String) :
    (runCleanup st i a).lists = st.lists := by
  simp [runCleanup, cleanup_redis_run_lock, cleanup_redis_instance_key,
    cleanup_redis_response_list]

@[simp] lemma runCleanup_published (st : RedisState) (i a : String) :
    (runCleanup st i a).published = st.published := by
  simp [runCleanup, cleanup_redis_run_lock, cleanup_redis_instance_key,
    cleanup_redis_response_list]

/-- A string with a newline spliced in the middle is never empty; the error
column written on the failure path always carries text. -/
lemma mid_newline_ne_empty (a b : String) : a ++ "\n" ++ b ≠ "" := by
  intro h
  have h' := congrArg String.length h
  rw [String.length_append, String.length_append] at h'
  have h1 : ("\n" : String).length = 1 := rfl
  have h2 : ("" : String).length = 0 := rfl
  omega

lemma getLast?_append_singleton {α : Type} (l : List α) (a : α) :
    (l ++ [a]).getLast? = some a := by
  rw [List.getLast?_append_cons]
  rfl

/-! Characterisation of the drive loop. -/

/-- With the cancellation flag never set and no terminal event in the
stream, the drive loop forwards every event and reports running. -/
lemma driveLoop_no_terminal (sentinel mf fb lk ch : String) :
    ∀ (evs : List Event) (idx : Nat) (st : RedisState),
      (∀ e ∈ evs, isTerminalEvent sentinel e = false) →
      driveLoop sentinel mf fb lk ch none evs idx st
        = (pushAll lk ch st evs, "running", none) := by
  intro evs
  induction evs with
  | nil => intro idx st _; rfl
  | cons e rest ih =>
    intro idx st h
    have he : isTerminalEvent sentinel e = false := h e (by simp)
    rw [driveLoop, pushAll_cons]
    simp only [stopFlag, if_false, he, Bool.false_eq_true]
    exact ih (idx + 1) (pushEvent lk ch st e) (fun x hx => h x (by simp [hx]))

/-- When the cancellation flag becomes observable at boundary j and the
loop reaches that boundary, the loop stops there: exactly the events
before the boundary are stored, and the status is stopped. -/
lemma driveLoop_stopAt (sentinel mf fb lk ch : String) :
    ∀ (evs : List Event) (idx j : Nat) (st : RedisState),
      idx ≤ j → j - idx < evs.length →
      (∀ e ∈ evs.take (j - idx), isTerminalEvent sentinel e = false) →
      driveLoop sentinel mf fb lk ch (some j) evs idx st
        = (pushAll lk ch st (evs.take (j - idx)), "stopped", none) := by
  intro evs
  induction evs with
  | nil => intro idx j st _ hlen _; simp at hlen
  | cons e rest ih =>
    intro idx j st hij hlen hnt
    by_cases hj : j ≤ idx
    · have : j = idx := le_antisymm hj hij
      subst this
      rw [driveLoop]
      simp [stopFlag, pushAll_nil]
    · have hlt : idx < j := lt_of_not_le hj
      have htake : (e :: rest).take (j - idx) = e :: rest.take (j - idx - 1) := by
        have h3 : j - idx = (j - idx - 1) + 1 := by omega
        rw [h3]
        rfl
      have he : isTerminalEvent sentinel e = false := by
        apply hnt; rw [htake]; simp
      rw [driveLoop]
      have hflag : stopFlag (some j) idx = false := by
        simp [stopFlag]; omega
      rw [hflag]
      simp only [Bool.false_eq_true, if_false]
      rw [if_neg (by simp [he])]
      rw [htake, pushAll_cons]
      have := ih (idx + 1) j (pushEvent lk ch st e) (by omega)
        (by simp only [List.length_cons] at hlen; omega)
        (by
          intro x hx
          apply hnt
          rw [htake]
          have : j - idx - 1 = j - (idx + 1) := by omega
          rw [this]
          exact List.mem_cons_of_mem _ hx)
      rw [this]
      have : j - idx - 1 = j - (idx + 1) := by omega
      rw [this]

/-- The final_status variable at loop exit is running, stopped, or the
terminal status of a sentinel event. -/
lemma driveLoop_status (sentinel mf fb lk ch : String) (stopAt : Option Nat) :
    ∀ (evs : List Event) (idx : Nat) (st : RedisState),
      (driveLoop sentinel mf fb lk ch stopAt evs idx st).2.1 = "running"
      ∨ (driveLoop sentinel mf fb lk ch stopAt evs idx st).2.1 = "stopped"
      ∨ isTerminalStatus (driveLoop sentinel mf fb lk ch stopAt evs idx st).2.1 = true := by
  intro evs
  induction evs with
  | nil => intro idx st; left; rfl
  | cons e rest ih =>
    intro idx st
    rw [driveLoop]
    by_cases hflag : stopFlag stopAt idx = true
    · rw [if_pos hflag]; right; left; rfl
    · rw [if_neg hflag]
      by_cases hterm : isTerminalEvent sentinel e = true
      · rw [if_pos hterm]
        right; right
        cases hstat : e.get "status" with
        | none => rw [isTerminalEvent, hstat] at hterm; simp at hterm
        | some s =>
          rw [isTerminalEvent, hstat] at hterm
          simp only [Bool.and_eq_true] at hterm
          simpa [hstat] using hterm.2
      · rw [if_neg hterm]
        exact ih (idx + 1) (pushEvent lk ch st e)

/-- The update the retry loop applies, when any, is the dictionary it was
given. -/
lemma stwLoop_applied (attempts : Nat → DbAttempt) (u : UpdateData) :
    ∀ l : List Nat, (stwLoop attempts u l).applied = none
      ∨ (stwLoop attempts u l).applied = some u := by
  intro l
  induction l with
  | nil => left; rfl
  | cons i rest ih =>
    cases hai : attempts i with
    | success => right; simp [stwLoop, hai]
    | emptyData =>
      rcases eq_or_ne rest [] with h | h
      · left; simp [stwLoop, hai, h]
      · simpa [stwLoop, hai, h] using ih
    | dbError =>
      rcases eq_or_ne rest [] with h | h
      · left; simp [stwLoop, hai, h]
      · simpa [stwLoop, hai, h] using ih

/-! Characterisation of the coordinator's execution paths. -/

/-- With no lock present, the first set-if-absent succeeds and the run body
executes on the state carrying the freshly written lock. -/
lemma run_agent_background_exec (inp : AgentInput) (st : RedisState) (row : AgentRunRow)
    (hlock : st.kv (agentRunLockKey inp.agent_run_id) = none) :
    run_agent_background inp st row
      = agentRunBody inp
          (redisSetEx st (agentRunLockKey inp.agent_run_id) inp.instance_id REDIS_KEY_TTL)
          row := by
  simp [run_agent_background, redisSetNX, hlock]

/-- With the flag never set, no terminal event, and a producer that raises,
the body takes the exception path after forwarding all events. -/
lemma agentRunBody_error (inp : AgentInput) (st : RedisState) (row : AgentRunRow)
    (msg : String)
    (hstop : inp.stopAt = none)
    (hnt : ∀ e ∈ inp.events, isTerminalEvent "status" e = false)
    (hpe : inp.producerError = some msg) :
    agentRunBody inp st row
      = agentFinishExcept inp
          (pushAll (agentResponseListKey inp.agent_run_id)
            (agentResponseChannel inp.agent_run_id)
            (redisSetEx st (agentInstanceActiveKey inp.instance_id inp.agent_run_id)
              "running" REDIS_KEY_TTL)
            inp.events)
          row msg := by
  simp only [agentRunBody, hstop, hpe]
  rw [driveLoop_no_terminal _ _ _ _ _ inp.events 0 _ hnt]
  rfl

/-- With the flag never set, no terminal event, and a producer that ends
cleanly, the body takes the normal path with the loop still running. -/
lemma agentRunBody_complete (inp : AgentInput) (st : RedisState) (row : AgentRunRow)
    (hstop : inp.stopAt = none)
    (hnt : ∀ e ∈ inp.events, isTerminalEvent "status" e = false)
    (hpe : inp.producerError = none) :
    agentRunBody inp st row
      = agentFinishNormal inp
          (pushAll (agentResponseListKey inp.agent_run_id)
            (agentResponseChannel inp.agent_run_id)
            (redisSetEx st (agentInstanceActiveKey inp.instance_id inp.agent_run_id)
              "running" REDIS_KEY_TTL)
            inp.events)
          row "running" none := by
  simp only [agentRunBody, hstop, hpe]
  rw [driveLoop_no_terminal _ _ _ _ _ inp.events 0 _ hnt]
  rfl

/-- With the flag observed at boundary k before the stream ends, the body
takes the normal path with status stopped and only the first k events
forwarded. -/
lemma agentRunBody_stop (inp : AgentInput) (st : RedisState) (row : AgentRunRow)
    (k : Nat)
    (hstop : inp.stopAt = some k)
    (hk : k < inp.events.length)
    (hnt : ∀ e ∈ inp.events.take k, isTerminalEvent "status" e = false) :
    agentRunBody inp st row
      = agentFinishNormal inp
          (pushAll (agentResponseListKey inp.agent_run_id)
            (agentResponseChannel inp.agent_run_id)
            (redisSetEx st (agentInstanceActiveKey inp.instance_id inp.agent_run_id)
              "running" REDIS_KEY_TTL)
            (inp.events.take k))
          row "stopped" none := by
  simp only [agentRunBody, hstop]
  rw [driveLoop_stopAt _ _ _ _ _ inp.events 0 k _ (Nat.zero_le k) hk hnt]
  cases hpe : inp.producerError <;> rfl

/-- C1: for every pair of deliveries of the same run-start job, a delivery
whose atomic set-if-absent of the run lock fails and which then reads an
existing holder returns without driving the producer and without writing
anything to the bus or the state store, on both the agent path and the
workflow path. -/
theorem claim_C1_duplicate_delivery_skips
    (inp : AgentInput) (st : RedisState) (row : AgentRunRow) (v : String)
    (winp : WorkflowInput) (wst : RedisState) (w : String)
    (h1 : st.kv (agentRunLockKey inp.agent_run_id) = some v) (h2 : v ≠ "")
    (h3 : wst.kv (workflowLockKey winp.execution_id) = some w) (h4 : w ≠ "") :
    run_agent_background inp st row
        = { redis := st, row := row, writes := [], finalStatus := none, executed := false }
    ∧ run_workflow_background winp wst
        = { redis := wst, wfWrites := [], agentWrites := [],
            finalStatus := none, executed := false } := by
  constructor
  · simp [run_agent_background, redisSetNX, h1, pyTruthyStr, h2]
  · simp [run_workflow_background, redisSetNX, h3, pyTruthyStr, h4]

/-- C1 witness: a second delivery of an already-claimed agent run and of an
already-claimed workflow run both skip without side effects. -/
theorem claim_C1_witness :
    run_agent_background sampleAgentInput sampleLockedRedis pendingRow
        = { redis := sampleLockedRedis, row := pendingRow, writes := [],
            finalStatus := none, executed := false }
    ∧ run_workflow_background sampleWorkflowInput sampleLockedRedis
        = { redis := sampleLockedRedis, wfWrites := [], agentWrites := [],
            finalStatus := none, executed := false } :=
  claim_C1_duplicate_delivery_skips sampleAgentInput sampleLockedRedis pendingRow "instA"
    sampleWorkflowInput sampleLockedRedis "instA" rfl (by decide) rfl (by decide)

/-- C2 counterexample: two status-writer calls with identical arguments at
different clock readings leave different stored state, because the
completion timestamp is re-read from the clock on every call. -/
theorem claim_C2_counterexample :
    statusWriterWrite (statusWriterWrite c2Row "completed" none [] "T1")
        "completed" none [] "T2"
      ≠ statusWriterWrite c2Row "completed" none [] "T1" := by
  decide

/-- C2 amended: the status writer is idempotent up to the completion
timestamp: a repeated call with identical arguments leaves status, error
and responses unchanged and resets completed_at to the clock reading of
the second call; when the two calls read the same clock value, the final
states are identical. -/
theorem claim_C2_amended
    (row : AgentRunRow) (s : String) (e : Option String) (r : List Event) (t1 t2 : String) :
    (statusWriterWrite (statusWriterWrite row s e r t1) s e r t2).status
        = (statusWriterWrite row s e r t1).status
    ∧ (statusWriterWrite (statusWriterWrite row s e r t1) s e r t2).error
        = (statusWriterWrite row s e r t1).error
    ∧ (statusWriterWrite (statusWriterWrite row s e r t1) s e r t2).responses
        = (statusWriterWrite row s e r t1).responses
    ∧ (statusWriterWrite (statusWriterWrite row s e r t1) s e r t2).completed_at = some t2
    ∧ (t1 = t2 →
        statusWriterWrite (statusWriterWrite row s e r t1) s e r t2
          = statusWriterWrite row s e r t1) := by
  refine ⟨rfl, ?_, ?_, rfl, ?_⟩
  · cases hce : (agentUpdateData s e r t1).error with
    | none =>
      have hce2 : (agentUpdateData s e r t2).error = none := hce
      simp [statusWriterWrite, applyAgentUpdate, hce, hce2]
    | some x =>
      have hce2 : (agentUpdateData s e r t2).error = some x := hce
      simp [statusWriterWrite, applyAgentUpdate, hce, hce2]
  · cases hcr : (agentUpdateData s e r t1).responses with
    | none =>
      have hcr2 : (agentUpdateData s e r t2).responses = none := hcr
      simp [statusWriterWrite, applyAgentUpdate, hcr, hcr2]
    | some x =>
      have hcr2 : (agentUpdateData s e r t2).responses = some x := hcr
      simp [statusWriterWrite, applyAgentUpdate, hcr, hcr2]
  · intro h
    subst h
    cases hce : (agentUpdateData s e r t1).error <;>
      cases hcr : (agentUpdateData s e r t1).responses <;>
        simp [statusWriterWrite, applyAgentUpdate, hce, hcr]

/-- C2 amended witness: at equal clock readings the repeated call is a
no-op. -/
theorem claim_C2_amended_witness :
    statusWriterWrite (statusWriterWrite c2Row "completed" none [] "T")
        "completed" none [] "T"
      = statusWriterWrite c2Row "completed" none [] "T" :=
  (claim_C2_amended c2Row "completed" none [] "T" "T").2.2.2.2 rfl

/-- C8 counterexample: the stop watcher does not refresh the heartbeat TTL
once per poll period independently of event traffic: with the response
counter at 1, five consecutive poll iterations perform zero refreshes. -/
theorem claim_C8_counterexample :
    ¬ (∀ (count n : Nat),
        (check_for_stop_signal count (List.replicate n (none : Option CtrlMessage))).2 = n) := by
  intro h
  have h5 := h 1 5
  have h0 : (check_for_stop_signal 1 (List.replicate 5 (none : Option CtrlMessage))).2 = 0 := by
    decide
  rw [h0] at h5
  exact absurd h5 (by decide)

/-- C8 amended: the stop watcher's heartbeat refresh is gated on the event
counter, not on time: on a window with no stop message it refreshes on
every poll iteration when the response count is divisible by 50 and never
otherwise, so the refresh cadence depends on event traffic. -/
theorem claim_C8_amended
    (count : Nat) (msgs : List (Option CtrlMessage))
    (hns : ∀ m ∈ msgs, isStopMsg m = false) :
    (check_for_stop_signal count msgs).2
      = if count % 50 = 0 then msgs.length else 0 := by
  induction msgs with
  | nil => simp [check_for_stop_signal]
  | cons m rest ih =>
    have hm : isStopMsg m = false := hns m (by simp)
    rw [check_for_stop_signal, if_neg (by simp [hm])]
    have ih' := ih (fun x hx => hns x (List.mem_cons_of_mem _ hx))
    by_cases hc : count % 50 = 0
    · simp [ih', hc]
      omega
    · simp [ih', hc]

/-- C8 amended witness: with the counter at a multiple of 50, three poll
iterations perform three refreshes. -/
theorem claim_C8_amended_witness :
    (check_for_stop_signal 50 (List.replicate 3 (none : Option CtrlMessage))).2 = 3 := by
  have h := claim_C8_amended 50 (List.replicate 3 (none : Option CtrlMessage))
    (by intro m hm; rw [List.eq_of_mem_replicate hm]; rfl)
  simpa using h

/-- C9: the status writer makes up to three attempts, returns true exactly
when some attempt succeeds (issuing the read-back verification then),
sleeps with exponential backoff (500 ms then 1000 ms, base 0.5 s and
factor 2) between raising attempts, and returns false only after all
three attempts failed. -/
theorem claim_C9_retry_backoff
    (a : Nat → DbAttempt) (s : String) (e : Option String) (r : List Event) (t : String) :
    ((update_agent_run_status a s e r t).ok = true
        ↔ (a 0 = DbAttempt.success ∨ a 1 = DbAttempt.success ∨ a 2 = DbAttempt.success))
    ∧ (update_agent_run_status a s e r t).verified = (update_agent_run_status a s e r t).ok
    ∧ (a 0 = DbAttempt.dbError → a 1 = DbAttempt.dbError → a 2 = DbAttempt.dbError →
        (update_agent_run_status a s e r t).ok = false
          ∧ (update_agent_run_status a s e r t).sleeps = [500, 1000])
    ∧ (a 0 = DbAttempt.success →
        (update_agent_run_status a s e r t).sleeps = []
          ∧ (update_agent_run_status a s e r t).applied = some (agentUpdateData s e r t)) := by
  cases h0 : a 0 <;> cases h1 : a 1 <;> cases h2 : a 2 <;>
    simp [update_agent_run_status, stwLoop, h0, h1, h2]

/-- C9 witness: with every attempt raising, the writer sleeps 0.5 s then
1 s and returns false. -/
theorem claim_C9_witness :
    (update_agent_run_status (fun _ => DbAttempt.dbError) "failed" none [] "T").ok = false
    ∧ (update_agent_run_status (fun _ => DbAttempt.dbError) "failed" none [] "T").sleeps
        = [500, 1000] :=
  (claim_C9_retry_backoff (fun _ => DbAttempt.dbError) "failed" none [] "T").2.2.1 rfl rfl rfl

/-- Any STOP message among the poll results makes the stop watcher set the
shared cancellation flag. -/
lemma stop_watcher_flag (count : Nat) :
    ∀ (msgs : List (Option CtrlMessage)) (m : Option CtrlMessage),
      m ∈ msgs → isStopMsg m = true → (check_for_stop_signal count msgs).1 = true := by
  intro msgs
  induction msgs with
  | nil => intro m hm _; simp at hm
  | cons x rest ih =>
    intro m hm hsm
    rw [check_for_stop_signal]
    by_cases hx : isStopMsg x = true
    · rw [if_pos hx]
    · rw [if_neg hx]
      rcases List.mem_cons.mp hm with h | h
      · subst h; exact absurd hsm hx
      · exact ih m h hsm

/-- C5: an uncaught producer exception ends the run as failed: the
synthetic error event is the last element of the response log, the row is
written with status failed and an error joining the exception message with
the stack trace together with the full log, and ERROR is broadcast on the
global control channel. -/
theorem claim_C5_failure_path
    (inp : AgentInput) (msg : String) (st : RedisState) (row : AgentRunRow)
    (hpe : inp.producerError = some msg)
    (hstop : inp.stopAt = none)
    (hnt : ∀ e ∈ inp.events, isTerminalEvent "status" e = false)
    (hlock : st.kv (agentRunLockKey inp.agent_run_id) = none)
    (hlist : st.lists (agentResponseListKey inp.agent_run_id) = [])
    (hatt : inp.attempts 0 = DbAttempt.success) :
    (run_agent_background inp st row).finalStatus = some "failed"
    ∧ (run_agent_background inp st row).redis.lists (agentResponseListKey inp.agent_run_id)
        = inp.events ++ [agentErrorEvent msg]
    ∧ ((run_agent_background inp st row).redis.lists
          (agentResponseListKey inp.agent_run_id)).getLast? = some (agentErrorEvent msg)
    ∧ (run_agent_background inp st row).writes
        = [{ status := "failed", completed_at := inp.now,
             error := some (msg ++ "\n" ++ inp.tracebackStr),
             responses := some (inp.events ++ [agentErrorEvent msg]) }]
    ∧ (agentGlobalControlChannel inp.agent_run_id, "ERROR")
        ∈ (run_agent_background inp st row).redis.published := by
  rw [run_agent_background_exec inp st row hlock,
    agentRunBody_error inp _ row msg hstop hnt hpe]
  have hbe : ((msg ++ "\n" ++ inp.tracebackStr) == "") = false := by
    rw [beq_eq_false_iff_ne]
    exact mid_newline_ne_empty msg inp.tracebackStr
  refine ⟨rfl, ?_, ?_, ?_, ?_⟩
  · simp [agentFinishExcept, hlist]
  · simp [agentFinishExcept, hlist, getLast?_append_singleton]
  · simp [agentFinishExcept, update_agent_run_status, stwLoop, hatt, agentUpdateData,
      pyTruthyStr, hbe, hlist]
  · simp [agentFinishExcept]

/-- C5 witness: a producer that yields one event and raises Boom. -/
theorem claim_C5_witness :
    (run_agent_background c5Input emptyRedis pendingRow).finalStatus = some "failed"
    ∧ (run_agent_background c5Input emptyRedis pendingRow).redis.lists
        (agentResponseListKey c5Input.agent_run_id)
        = c5Input.events ++ [agentErrorEvent "Boom"]
    ∧ ((run_agent_background c5Input emptyRedis pendingRow).redis.lists
        (agentResponseListKey c5Input.agent_run_id)).getLast?
        = some (agentErrorEvent "Boom")
    ∧ (run_agent_background c5Input emptyRedis pendingRow).writes
        = [{ status := "failed", completed_at := c5Input.now,
             error := some ("Boom" ++ "\n" ++ c5Input.tracebackStr),
             responses := some (c5Input.events ++ [agentErrorEvent "Boom"]) }]
    ∧ (agentGlobalControlChannel c5Input.agent_run_id, "ERROR")
        ∈ (run_agent_background c5Input emptyRedis pendingRow).redis.published :=
  claim_C5_failure_path c5Input "Boom" emptyRedis pendingRow rfl rfl (by decide)
    rfl rfl rfl

/-- C6: when the producer ends without a terminal status event (including
the zero-event stream) and no stop was requested, the run completes: one
synthetic completion event is appended before the terminal write, so the
log is non-empty and ends with that event, and the row write carries the
log. -/
theorem claim_C6_implicit_completion
    (inp : AgentInput) (st : RedisState) (row : AgentRunRow)
    (hlock : st.kv (agentRunLockKey inp.agent_run_id) = none)
    (hpe : inp.producerError = none)
    (hstop : inp.stopAt = none)
    (hnt : ∀ e ∈ inp.events, isTerminalEvent "status" e = false)
    (hlist : st.lists (agentResponseListKey inp.agent_run_id) = [])
    (hatt : inp.attempts 0 = DbAttempt.success) :
    (run_agent_background inp st row).finalStatus = some "completed"
    ∧ (run_agent_background inp st row).redis.lists (agentResponseListKey inp.agent_run_id)
        = inp.events ++ [agentCompletionMessage]
    ∧ (run_agent_background inp st row).redis.lists (agentResponseListKey inp.agent_run_id)
        ≠ []
    ∧ ((run_agent_background inp st row).redis.lists
          (agentResponseListKey inp.agent_run_id)).getLast? = some agentCompletionMessage
    ∧ (run_agent_background inp st row).writes
        = [{ status := "completed", completed_at := inp.now, error := none,
             responses := some (inp.events ++ [agentCompletionMessage]) }] := by
  rw [run_agent_background_exec inp st row hlock,
    agentRunBody_complete inp _ row hstop hnt hpe]
  refine ⟨rfl, ?_, ?_, ?_, ?_⟩
  · simp [agentFinishNormal, hlist]
  · simp [agentFinishNormal, hlist]
  · simp [agentFinishNormal, hlist, getLast?_append_singleton]
  · simp [agentFinishNormal, update_agent_run_status, stwLoop, hatt, agentUpdateData,
      pyTruthyStr, hlist]

/-- C6 witness: the zero-event stream produces exactly the synthetic
terminal event. -/
theorem claim_C6_witness :
    (run_agent_background c6Input emptyRedis pendingRow).finalStatus = some "completed"
    ∧ (run_agent_background c6Input emptyRedis pendingRow).redis.lists
        (agentResponseListKey c6Input.agent_run_id)
        = c6Input.events ++ [agentCompletionMessage]
    ∧ (run_agent_background c6Input emptyRedis pendingRow).redis.lists
        (agentResponseListKey c6Input.agent_run_id) ≠ []
    ∧ ((run_agent_background c6Input emptyRedis pendingRow).redis.lists
        (agentResponseListKey c6Input.agent_run_id)).getLast? = some agentCompletionMessage
    ∧ (run_agent_background c6Input emptyRedis pendingRow).writes
        = [{ status := "completed", completed_at := c6Input.now, error := none,
             responses := some (c6Input.events ++ [agentCompletionMessage]) }] :=
  claim_C6_implicit_completion c6Input emptyRedis pendingRow rfl rfl rfl (by decide)
    rfl rfl

/-- C7: a STOP payload received on a control channel makes the stop
watcher set the shared cancellation flag, and a drive loop that observes
the flag at event boundary k finishes the run with final status stopped
while every event emitted before that boundary remains in the response
log. -/
theorem claim_C7_stop
    (count : Nat) (msgs : List (Option CtrlMessage)) (m : Option CtrlMessage)
    (inp : AgentInput) (st : RedisState) (row : AgentRunRow) (k : Nat)
    (hm : m ∈ msgs) (hsm : isStopMsg m = true)
    (hlock : st.kv (agentRunLockKey inp.agent_run_id) = none)
    (hstop : inp.stopAt = some k)
    (hk : k < inp.events.length)
    (hnt : ∀ e ∈ inp.events.take k, isTerminalEvent "status" e = false)
    (hlist : st.lists (agentResponseListKey inp.agent_run_id) = []) :
    (check_for_stop_signal count msgs).1 = true
    ∧ (run_agent_background inp st row).finalStatus = some "stopped"
    ∧ (run_agent_background inp st row).redis.lists (agentResponseListKey inp.agent_run_id)
        = inp.events.take k := by
  refine ⟨stop_watcher_flag count msgs m hm hsm, ?_, ?_⟩
  · rw [run_agent_background_exec inp st row hlock,
      agentRunBody_stop inp _ row k hstop hk hnt]
    rfl
  · rw [run_agent_background_exec inp st row hlock,
      agentRunBody_stop inp _ row k hstop hk hnt]
    have hb : (("stopped" : String) == "running") = false := rfl
    simp [agentFinishNormal, hb, hlist]

/-- C7 witness: a slow two-event producer stopped at boundary 1 keeps
exactly the first event. -/
theorem claim_C7_witness :
    (check_for_stop_signal 0 [some { mtype := "message", data := "STOP" }]).1 = true
    ∧ (run_agent_background c7Input emptyRedis pendingRow).finalStatus = some "stopped"
    ∧ (run_agent_background c7Input emptyRedis pendingRow).redis.lists
        (agentResponseListKey c7Input.agent_run_id) = c7Input.events.take 1 :=
  claim_C7_stop 0 [some { mtype := "message", data := "STOP" }]
    (some { mtype := "message", data := "STOP" }) c7Input emptyRedis pendingRow 1
    (by simp) rfl rfl rfl (by decide) (by decide) rfl

/-- C10: the terminal write includes the error and responses columns only
when truthy: a falsy error is omitted, an empty fetched list is omitted,
status and the completion timestamp are always written, the omitted
columns are left unchanged on the row, and a run stopped before any event
was emitted writes only status and completed_at. -/
theorem claim_C10_truthy_frame
    (s : String) (e : Option String) (r : List Event) (t : String) (row : AgentRunRow)
    (inp : AgentInput) (st : RedisState) (row' : AgentRunRow) (ev : Event)
    (rest : List Event)
    (he : pyTruthyStr e = false)
    (hlock : st.kv (agentRunLockKey inp.agent_run_id) = none)
    (hstop : inp.stopAt = some 0)
    (hev : inp.events = ev :: rest)
    (hlist : st.lists (agentResponseListKey inp.agent_run_id) = [])
    (hatt : inp.attempts 0 = DbAttempt.success) :
    (agentUpdateData s e r t).error = none
    ∧ (∀ e2 : Option String, (agentUpdateData s e2 [] t).responses = none)
    ∧ (agentUpdateData s e r t).status = s
    ∧ (agentUpdateData s e r t).completed_at = t
    ∧ applyAgentUpdate row (agentUpdateData s e [] t)
        = { row with status := s, completed_at := some t }
    ∧ (run_agent_background inp st row').writes
        = [{ status := "stopped", completed_at := inp.now, error := none,
             responses := none }] := by
  refine ⟨?_, ?_, rfl, rfl, ?_, ?_⟩
  · simp [agentUpdateData, he]
  · intro e2; simp [agentUpdateData]
  · simp [applyAgentUpdate, agentUpdateData, he]
  · rw [run_agent_background_exec inp st row' hlock,
      agentRunBody_stop inp _ row' 0 hstop (by rw [hev]; simp) (by simp)]
    have hb : (("stopped" : String) == "running") = false := rfl
    simp [agentFinishNormal, hb, update_agent_run_status, stwLoop, hatt,
      agentUpdateData, pyTruthyStr, hlist]

/-- C10 witness: a run stopped at boundary 0 stores no error and leaves
the responses column untouched. -/
theorem claim_C10_witness :
    (agentUpdateData "stopped" none [] "T7").error = none
    ∧ (∀ e2 : Option String, (agentUpdateData "stopped" e2 [] "T7").responses = none)
    ∧ (agentUpdateData "stopped" none [] "T7").status = "stopped"
    ∧ (agentUpdateData "stopped" none [] "T7").completed_at = "T7"
    ∧ applyAgentUpdate pendingRow (agentUpdateData "stopped" none [] "T7")
        = { pendingRow with status := "stopped", completed_at := some "T7" }
    ∧ (run_agent_background c10Input emptyRedis pendingRow).writes
        = [{ status := "stopped", completed_at := c10Input.now, error := none,
             responses := none }] :=
  claim_C10_truthy_frame "stopped" none [] "T7" pendingRow c10Input emptyRedis pendingRow
    ⟨[("type", "assistant"), ("text", "x")]⟩ [] rfl rfl rfl rfl rfl rfl

/-- The list of writes the retry loop applies is empty or the single given
dictionary. -/
lemma stwToList (attempts : Nat → DbAttempt) (u : UpdateData) (l : List Nat) :
    (stwLoop attempts u l).applied.toList = []
    ∨ (stwLoop attempts u l).applied.toList = [u] := by
  rcases stwLoop_applied attempts u l with h | h <;> simp [h]

/-- The exception path writes at most one update, and it is terminal with
the call's clock reading. -/
lemma agentFinishExcept_writes (inp : AgentInput) (stX : RedisState) (row : AgentRunRow)
    (msg : String) :
    (agentFinishExcept inp stX row msg).writes = []
    ∨ ∃ u : UpdateData, (agentFinishExcept inp stX row msg).writes = [u]
        ∧ isTerminalStatus u.status = true ∧ u.completed_at = inp.now := by
  rcases stwToList inp.attempts
      (agentUpdateData "failed" (some (msg ++ "\n" ++ inp.tracebackStr))
        (stX.lists (agentResponseListKey inp.agent_run_id) ++ [agentErrorEvent msg])
        inp.now) [0, 1, 2] with h | h
  · left; simp [agentFinishExcept, update_agent_run_status, h]
  · right
    exact ⟨agentUpdateData "failed" (some (msg ++ "\n" ++ inp.tracebackStr))
        (stX.lists (agentResponseListKey inp.agent_run_id) ++ [agentErrorEvent msg]) inp.now,
      by simp [agentFinishExcept, update_agent_run_status, h], rfl, rfl⟩

/-- The normal path writes at most one update, and it is terminal with the
call's clock reading, provided the loop exited running, stopped or on a
terminal event. -/
lemma agentFinishNormal_writes (inp : AgentInput) (stX : RedisState) (row : AgentRunRow)
    (fs : String) (errMsg : Option String)
    (hfs : fs = "running" ∨ isTerminalStatus fs = true) :
    (agentFinishNormal inp stX row fs errMsg).writes = []
    ∨ ∃ u : UpdateData, (agentFinishNormal inp stX row fs errMsg).writes = [u]
        ∧ isTerminalStatus u.status = true ∧ u.completed_at = inp.now := by
  cases hb : (fs == "running") with
  | true =>
    rcases stwToList inp.attempts
        (agentUpdateData "completed" errMsg
          (stX.lists (agentResponseListKey inp.agent_run_id) ++ [agentCompletionMessage])
          inp.now) [0, 1, 2] with h | h
    · left; simp [agentFinishNormal, update_agent_run_status, hb, h]
    · right
      exact ⟨agentUpdateData "completed" errMsg
          (stX.lists (agentResponseListKey inp.agent_run_id) ++ [agentCompletionMessage])
          inp.now,
        by simp [agentFinishNormal, update_agent_run_status, hb, h], rfl, rfl⟩
  | false =>
    have hterm : isTerminalStatus fs = true := by
      rcases hfs with h | h
      · subst h; simp at hb
      · exact h
    rcases stwToList inp.attempts
        (agentUpdateData fs errMsg
          (stX.lists (agentResponseListKey inp.agent_run_id)) inp.now) [0, 1, 2] with h | h
    · left; simp [agentFinishNormal, update_agent_run_status, hb, h]
    · right
      exact ⟨agentUpdateData fs errMsg
          (stX.lists (agentResponseListKey inp.agent_run_id)) inp.now,
        by simp [agentFinishNormal, update_agent_run_status, hb, h], hterm, rfl⟩

/-- Every execution of the agent run body performs at most one row write,
always with a terminal status and the completion timestamp of the call. -/
lemma agentRunBody_writes (inp : AgentInput) (st : RedisState) (row : AgentRunRow) :
    (agentRunBody inp st row).writes = []
    ∨ ∃ u : UpdateData, (agentRunBody inp st row).writes = [u]
        ∧ isTerminalStatus u.status = true ∧ u.completed_at = inp.now := by
  have hst := driveLoop_status "status" "message" "Run ended with status: "
    (agentResponseListKey inp.agent_run_id) (agentResponseChannel inp.agent_run_id)
    inp.stopAt inp.events 0
    (redisSetEx st (agentInstanceActiveKey inp.instance_id inp.agent_run_id)
      "running" REDIS_KEY_TTL)
  simp only [agentRunBody]
  set r := driveLoop "status" "message" "Run ended with status: "
    (agentResponseListKey inp.agent_run_id) (agentResponseChannel inp.agent_run_id)
    inp.stopAt inp.events 0
    (redisSetEx st (agentInstanceActiveKey inp.instance_id inp.agent_run_id)
      "running" REDIS_KEY_TTL) with hr
  have hfs : r.2.1 = "running" ∨ isTerminalStatus r.2.1 = true := by
    rcases hst with h | h | h
    · left; exact h
    · right; rw [h]; rfl
    · right; exact h
  cases hpe : inp.producerError with
  | none =>
    cases hb : (r.2.1 == "running") with
    | true => exact agentFinishNormal_writes inp r.1 row r.2.1 r.2.2 hfs
    | false => exact agentFinishNormal_writes inp r.1 row r.2.1 r.2.2 hfs
  | some msg =>
    cases hb : (r.2.1 == "running") with
    | true => exact agentFinishExcept_writes inp r.1 row msg
    | false => exact agentFinishNormal_writes inp r.1 row r.2.1 r.2.2 hfs

/-- With no lock present, the first set-if-absent succeeds and the
workflow run body executes on the state carrying the fresh lock. -/
lemma run_workflow_background_exec (inp : WorkflowInput) (wst : RedisState)
    (hlock : wst.kv (workflowLockKey inp.execution_id) = none) :
    run_workflow_background inp wst
      = wfRunBody inp
          (redisSetEx wst (workflowLockKey inp.execution_id) inp.instance_id
            REDIS_KEY_TTL) := by
  simp [run_workflow_background, redisSetNX, hlock]

/-- Every execution of the workflow run body writes running (with a start
timestamp) followed by exactly one terminal status to the
workflow_executions row. -/
lemma wfRunBody_writes (inp : WorkflowInput) (st : RedisState) :
    ∃ t : String, (wfRunBody inp st).wfWrites.map (fun u => u.status) = ["running", t]
      ∧ isTerminalStatus t = true := by
  have hst := driveLoop_status "workflow_status" "error" "Workflow ended with status: "
    (wfResponseListKey inp) (wfResponseChannel inp) inp.stopAt inp.events 0
    (redisSetEx st (wfInstanceActiveKey inp) "running" REDIS_KEY_TTL)
  simp only [wfRunBody]
  set r := driveLoop "workflow_status" "error" "Workflow ended with status: "
    (wfResponseListKey inp) (wfResponseChannel inp) inp.stopAt inp.events 0
    (redisSetEx st (wfInstanceActiveKey inp) "running" REDIS_KEY_TTL) with hr
  cases hpe : inp.producerError with
  | none =>
    cases hb : (r.2.1 == "running") with
    | true =>
      exact ⟨"completed",
        by simp [wfFinishNormal, update_workflow_execution_status, hb], rfl⟩
    | false =>
      have hterm : isTerminalStatus r.2.1 = true := by
        rcases hst with h | h | h
        · rw [h] at hb; simp at hb
        · rw [h]; rfl
        · exact h
      exact ⟨r.2.1,
        by simp [wfFinishNormal, update_workflow_execution_status, hb], hterm⟩
  | some msg =>
    cases hb : (r.2.1 == "running") with
    | true =>
      exact ⟨"failed",
        by simp [wfFinishExcept, update_workflow_execution_status], rfl⟩
    | false =>
      have hterm : isTerminalStatus r.2.1 = true := by
        rcases hst with h | h | h
        · rw [h] at hb; simp at hb
        · rw [h]; rfl
        · exact h
      exact ⟨r.2.1,
        by simp [wfFinishNormal, update_workflow_execution_status, hb], hterm⟩

/-- C3 counterexample: two deliveries of the same run-start job, the
second arriving after the first finished and cleanup deleted the run lock,
produce two row writes: the first is terminal with a non-null completion
timestamp, and the second nevertheless modifies the row again, moving the
completion timestamp from T1 to T2. -/
theorem claim_C3_counterexample :
    (processAgentDeliveries [c3Delivery1, c3Delivery2] emptyRedis pendingRow).2.2.map
        (fun u => (u.status, u.completed_at))
      = [("completed", "T1"), ("completed", "T2")]
    ∧ (processAgentDeliveries [c3Delivery1] emptyRedis pendingRow).2.1.completed_at
        = some "T1"
    ∧ (processAgentDeliveries [c3Delivery1, c3Delivery2] emptyRedis
        pendingRow).2.1.completed_at = some "T2" := by
  decide

/-- C3 amended: within a single processing of a delivery the status writes
are monotone: an agent delivery performs at most one row write, always
with a terminal status and a non-null completion timestamp, and a workflow
delivery that executes writes running (with started_at) followed by
exactly one terminal status.  Immutability of a terminal row across
deliveries does not hold, because cleanup deletes the run lock and a
redelivery then re-executes and rewrites the row. -/
theorem claim_C3_amended (inp : AgentInput) (st : RedisState) (row : AgentRunRow)
    (winp : WorkflowInput) (wst : RedisState) :
    ((run_agent_background inp st row).writes = []
      ∨ ∃ u : UpdateData, (run_agent_background inp st row).writes = [u]
          ∧ isTerminalStatus u.status = true ∧ u.completed_at = inp.now)
    ∧ ((run_workflow_background winp wst).wfWrites = []
      ∨ ∃ t : String, (run_workflow_background winp wst).wfWrites.map (fun u => u.status)
            = ["running", t] ∧ isTerminalStatus t = true) := by
  constructor
  · cases hkv : st.kv (agentRunLockKey inp.agent_run_id) with
    | none =>
      rw [run_agent_background_exec inp st row hkv]
      exact agentRunBody_writes inp _ row
    | some v =>
      left
      simp only [run_agent_background, redisSetNX, hkv, Bool.false_eq_true, if_false]
      split <;> rfl
  · cases hkv : wst.kv (workflowLockKey winp.execution_id) with
    | none =>
      rw [run_workflow_background_exec winp wst hkv]
      exact Or.inr (wfRunBody_writes winp _)
    | some v =>
      left
      simp only [run_workflow_background, redisSetNX, hkv, Bool.false_eq_true, if_false]
      split <;> rfl

/-- C4 divergence, evaluated at the failing inputs: after a workflow run
reaches DONE the workflow_run_lock key still exists (cleanup deletes the
agent-pattern lock key instead), and without an agent-run alias the
heartbeat key also survives and the response list gets no TTL. -/
theorem claim_C4_workflow_cleanup_leak :
    (run_workflow_background c4AliasInput emptyRedis).redis.kv "workflow_run_lock:e1"
        = some "i1"
    ∧ (run_workflow_background c4NoAliasInput emptyRedis).redis.kv "workflow_run_lock:e1"
        = some "i1"
    ∧ (run_workflow_background c4NoAliasInput emptyRedis).redis.kv "active_workflow:i1:e1"
        = some "running"
    ∧ (run_workflow_background c4NoAliasInput emptyRedis).redis.ttl
        "workflow_execution:e1:responses" = none := by
  decide
